import Mathlib

/-!
Shallow embedding of the signal-to-execution decision engine of
`src/trade/okx.py` (single-instrument OKX perpetual-swap trading bot).

Numeric values are embedded as rationals (`ℚ`); Python decimal literals
such as `0.6`, `0.98`, `3.0` become the exact rationals `6/10`, `98/100`,
`3`.  Exchange and oracle interactions are modelled as explicit inputs:
the current position, the live balance, the acknowledgment code returned
for a submitted close order, and the oracle's raw text response are
parameters, and the observable effect of `execute_trade` is the list of
orders it submits, in submission order.
-/

namespace Okx

/-- Left brace character, written by code point to keep it out of literals. -/
def lbrace : Char := Char.ofNat 123

/-- Right brace character, written by code point. -/
def rbrace : Char := Char.ofNat 125

/-- A JSON scalar value as it appears in the oracle's parsed reply.
Python's `json.loads` produces heterogeneous dict values; the trading code
only ever inspects them for presence and (string) equality. -/
inductive JsonVal where
  | str (s : String)
  | num (q : ℚ)
  | bool (b : Bool)
  | null
deriving DecidableEq

/-- A parsed JSON object / Python dict, as an association list.  Lookup
takes the first binding, and updates prepend, matching dict overwrite
semantics observationally. -/
abbrev JsonObj := List (String × JsonVal)

/-- Membership test for a key, embedding Python's `field in signal_data`. -/
def JsonObj.hasField (o : JsonObj) (k : String) : Bool :=
  o.any (fun p => p.1 == k)

/-- Key lookup, embedding Python's `signal_data[field]` (first binding wins). -/
def JsonObj.get (o : JsonObj) (k : String) : Option JsonVal :=
  (o.find? (fun p => p.1 == k)).map Prod.snd

/-- Key update, embedding Python's `signal_data['timestamp'] = ...`:
the new binding shadows any older one under `JsonObj.get`. -/
def JsonObj.setField (o : JsonObj) (k : String) (v : JsonVal) : JsonObj :=
  (k, v) :: o

/-- The fields of `price_data` read by the functions modelled here
(`price_data['price']` and `price_data['timestamp']`). -/
structure PriceData where
  price : ℚ
  timestamp : String
deriving DecidableEq

/-- The fields of the signal dict read by `execute_trade`
(`signal_data['signal']` and `signal_data['confidence']`).  A non-string
JSON value in either slot compares unequal to every string literal in the
Python code, exactly as an arbitrary other string does, so `String` fields
lose no behaviour. -/
structure SignalData where
  signal : String
  confidence : String
deriving DecidableEq

/-- Contract specification as returned by `get_contract_specs`. -/
structure ContractSpec where
  min_size : ℚ
  size_increment : ℚ
  contract_value : ℚ
deriving DecidableEq

/-- The hard-coded fallback specification returned by `get_contract_specs`
when the exchange query fails: `min_size 0.01`, `size_increment 0.0001`,
`contract_value 0.1`. -/
def default_contract_specs : ContractSpec :=
  { min_size := 1/100, size_increment := 1/10000, contract_value := 1/10 }

/-- The fields of `TRADE_CONFIG` consumed by the sizing and execution
code.  `test_mode` is kept as a field so both settings of the flag can be
reasoned about. -/
structure TradeConfig where
  target_notional : ℚ
  leverage : ℚ
  test_mode : Bool
  max_position_value : ℚ
deriving DecidableEq

/-- The literal `TRADE_CONFIG` of the source: target notional 5.0,
leverage 10, `test_mode` False, max position value 100.0. -/
def TRADE_CONFIG : TradeConfig :=
  { target_notional := 5, leverage := 10, test_mode := false,
    max_position_value := 100 }

/-- Python's built-in `round` on a rational: round half to even. -/
def pyRound (x : ℚ) : ℤ :=
  if x - (x.floor : ℚ) < 1/2 then x.floor
  else if (1/2 : ℚ) < x - (x.floor : ℚ) then x.floor + 1
  else if x.floor % 2 = 0 then x.floor else x.floor + 1

/-- Result triple of `calculate_position_size`. -/
structure SizingResult where
  contracts : ℚ
  actual_notional : ℚ
  required_margin : ℚ
deriving DecidableEq

/-- Embedding of `calculate_position_size(price, target_notional)`.
The contract spec is passed in (the source fetches it live inside the
function).  `contracts_needed = target / (contract_value * price)`; the
quantity is clamped up to `min_size`, then — when `size_increment > 0` —
rounded to the nearest multiple of `size_increment` with Python `round`;
notional and margin are recomputed from the quantized quantity.  When
`contract_value * price = 0` the Python division raises and the `except`
branch returns the documented defaults (0.01 contracts, notional
`0.01 * 0.1 * price`, margin `notional / leverage`). -/
def calculate_position_size (cfg : TradeConfig) (spec : ContractSpec)
    (price target_notional : ℚ) : SizingResult :=
  if spec.contract_value * price = 0 then
    { contracts := 1/100,
      actual_notional := (1/100) * (1/10) * price,
      required_margin := ((1/100) * (1/10) * price) / cfg.leverage }
  else
    let contracts_needed := target_notional / (spec.contract_value * price)
    let adjusted_raw := max contracts_needed spec.min_size
    let adjusted_contracts :=
      if 0 < spec.size_increment then
        (pyRound (adjusted_raw / spec.size_increment) : ℚ) * spec.size_increment
      else adjusted_raw
    let actual_notional := adjusted_contracts * spec.contract_value * price
    { contracts := adjusted_contracts,
      actual_notional := actual_notional,
      required_margin := actual_notional / cfg.leverage }

/-- Embedding of `create_fallback_signal(price_data)`: the deterministic
conservative signal dict. -/
def create_fallback_signal (price_data : PriceData) : JsonObj :=
  [("signal", JsonVal.str "HOLD"),
   ("reason", JsonVal.str "因技术分析暂时不可用，采取保守策略"),
   ("stop_loss", JsonVal.num (price_data.price * (98/100))),
   ("take_profit", JsonVal.num (price_data.price * (102/100))),
   ("confidence", JsonVal.str "LOW"),
   ("is_fallback", JsonVal.bool true)]

/-- The required-field list checked by `analyze_with_deepseek`. -/
def required_fields : List String :=
  ["signal", "reason", "stop_loss", "take_profit", "confidence"]

/-- Index of the last character satisfying `p`, embedding Python `rfind`. -/
def rfindIdx (p : Char → Bool) (l : List Char) : Option Nat :=
  match l.reverse.findIdx? p with
  | some i => some (l.length - 1 - i)
  | none => none

/-- Brace extraction step of `analyze_with_deepseek`: the source locates
the first `{` (`result.find`), the last `}` (`result.rfind`, success when
`end_idx != 0`), and slices `result[start_idx:end_idx]`; when either brace
is absent the parse attempt is skipped. -/
def extract_braced (result : String) : Option String :=
  match result.toList.findIdx? (fun c => c == lbrace),
        rfindIdx (fun c => c == rbrace) result.toList with
  | some start_idx, some last_idx =>
    some (String.mk
      ((result.toList.drop start_idx).take (last_idx + 1 - start_idx)))
  | _, _ => none

/-- Embedding of `analyze_with_deepseek(price_data)`.  External effects
are parameters: `client_ok` models `deepseek_client` being non-None,
`oracle_response` is the oracle's raw completion text (`none` models an
exception from the call itself), and `parseJson` abstracts `json.loads`
(`none` models a parse exception).  The source extracts the brace-enclosed
substring, parses it, checks that all `required_fields` are present, and
on success stamps the timestamp and returns the parsed dict; every other
path returns `create_fallback_signal`.  The bounded `signal_history`
append is a side effect on a global list and is not modelled. -/
def analyze_with_deepseek (parseJson : String → Option JsonObj)
    (client_ok : Bool) (oracle_response : Option String)
    (price_data : PriceData) : JsonObj :=
  if client_ok = false then create_fallback_signal price_data
  else
    match oracle_response with
    | none => create_fallback_signal price_data
    | some result =>
      match extract_braced result with
      | some json_str =>
        match parseJson json_str with
        | some signal_data =>
          if required_fields.all (fun f => signal_data.hasField f) then
            signal_data.setField "timestamp" (JsonVal.str price_data.timestamp)
          else create_fallback_signal price_data
        | none => create_fallback_signal price_data
      | none => create_fallback_signal price_data

/-- The fields of the position record returned by `get_current_position`
that `execute_trade` reads: `side` ("long"/"short") and `size` (contracts,
positive). -/
structure PositionRecord where
  side : String
  size : ℚ
deriving DecidableEq

/-- A market order as submitted through `privatePostTradeOrder`.  The
source's open-order param dicts carry no `reduceOnly` key, which the
exchange defaults to false; `sz` is sent as a string of the rational. -/
structure Order where
  instId : String
  tdMode : String
  side : String
  posSide : String
  ordType : String
  sz : ℚ
  reduceOnly : Bool
deriving DecidableEq

/-- The open-long order dict built in the BUY branch of `execute_trade`. -/
def open_long_order (position_size : ℚ) : Order :=
  { instId := "OKB-USDT-SWAP", tdMode := "isolated", side := "buy",
    posSide := "long", ordType := "market", sz := position_size,
    reduceOnly := false }

/-- The open-short order dict built in the SELL branch of `execute_trade`. -/
def open_short_order (position_size : ℚ) : Order :=
  { instId := "OKB-USDT-SWAP", tdMode := "isolated", side := "sell",
    posSide := "short", ordType := "market", sz := position_size,
    reduceOnly := false }

/-- The reduce-only close of an existing short, built in the BUY branch. -/
def close_short_order (size : ℚ) : Order :=
  { instId := "OKB-USDT-SWAP", tdMode := "isolated", side := "buy",
    posSide := "short", ordType := "market", sz := size,
    reduceOnly := true }

/-- The reduce-only close of an existing long, built in the SELL branch. -/
def close_long_order (size : ℚ) : Order :=
  { instId := "OKB-USDT-SWAP", tdMode := "isolated", side := "sell",
    posSide := "long", ordType := "market", sz := size,
    reduceOnly := true }

/-- The signal dispatch of `execute_trade` (source lines 703-772), run
after every risk gate has passed: BUY closes an existing short first
(aborting, close submitted, when the exchange acknowledgment code is not
"0") and then opens long; SELL symmetrically; HOLD — and any unrecognized
action string — submits nothing. -/
def signal_dispatch (signal_data : SignalData)
    (current_position : Option PositionRecord)
    (position_size : ℚ) (close_ack_code : String) : List Order :=
  if signal_data.signal = "BUY" then
    match current_position with
    | some pos =>
      if pos.side = "short" then
        if close_ack_code ≠ "0" then [close_short_order pos.size]
        else [close_short_order pos.size, open_long_order position_size]
      else [open_long_order position_size]
    | none => [open_long_order position_size]
  else if signal_data.signal = "SELL" then
    match current_position with
    | some pos =>
      if pos.side = "long" then
        if close_ack_code ≠ "0" then [close_long_order pos.size]
        else [close_long_order pos.size, open_short_order position_size]
      else [open_short_order position_size]
    | none => [open_short_order position_size]
  else []

/-- Embedding of `execute_trade(signal_data, price_data)`.  Exchange state
is passed in (`current_position`, `usdt_balance`, the contract spec used
by both the sizing call and the max-position check, and the code the
exchange acknowledges the reduce-only close order with).  The result is
the list of orders submitted, in order.  Gate chain as in the source:
confidence LOW, test mode, margin over 60% of balance, notional over the
max position value, notional under 3.0, and — when a position exists —
existing notional plus new notional over the max position value; each
failing gate returns with no order, before the signal dispatch runs. -/
def execute_trade (cfg : TradeConfig) (spec : ContractSpec)
    (signal_data : SignalData) (price_data : PriceData)
    (current_position : Option PositionRecord)
    (usdt_balance : ℚ) (close_ack_code : String) : List Order :=
  let current_price := price_data.price
  if signal_data.confidence = "LOW" then []
  else if cfg.test_mode then []
  else
    let sizing := calculate_position_size cfg spec current_price 5
    if sizing.required_margin > usdt_balance * (6/10) then []
    else if sizing.actual_notional > cfg.max_position_value then []
    else if sizing.actual_notional < 3 then []
    else if (match current_position with
             | some pos =>
               decide (pos.size * spec.contract_value * current_price
                 + sizing.actual_notional > cfg.max_position_value)
             | none => false) then []
    else signal_dispatch signal_data current_position sizing.contracts
      close_ack_code

/-- Successive close-to-close differences, embedding `df['close'].diff()`
(the leading NaN row dropped). -/
def deltas : List ℚ → List ℚ
  | [] => []
  | [_] => []
  | a :: b :: rest => (b - a) :: deltas (b :: rest)

/-- The trailing 14 elements of a list, the window of `rolling(14)` at the
final row. -/
def last14 (l : List ℚ) : List ℚ := l.drop (l.length - 14)

/-- Embedding of `gain = delta.where(delta > 0, 0).rolling(14).mean()` at
the final row: the mean of the clamped-positive deltas over the trailing
14-step window. -/
def avg_gain (closes : List ℚ) : ℚ :=
  ((last14 (deltas closes)).map (fun d => max d 0)).sum / 14

/-- Embedding of `loss = (-delta.where(delta < 0, 0)).rolling(14).mean()`
at the final row. -/
def avg_loss (closes : List ℚ) : ℚ :=
  ((last14 (deltas closes)).map (fun d => max (-d) 0)).sum / 14

/-- Embedding of `rs = gain / loss; rsi = 100 - (100 / (1 + rs))` at the
final row, under IEEE semantics: when `avg_loss = 0` and `avg_gain > 0`
the float quotient is `+inf` and the expression evaluates to `100`; the
branch writes that limit value (the `avg_gain = 0 = avg_loss` case is NaN
in the source and excluded by every claim's non-degeneracy hypothesis). -/
def rsi (closes : List ℚ) : ℚ :=
  if avg_loss closes = 0 then 100
  else 100 - 100 / (1 + avg_gain closes / avg_loss closes)

/-- Python `round` never returns less than the floor of its argument. -/
theorem floor_le_pyRound (x : ℚ) : x.floor ≤ pyRound x := by
  unfold pyRound
  split_ifs <;> omega

/-- Any integer below the argument is below the Python rounding. -/
theorem le_pyRound_of_le (k : ℤ) (x : ℚ) (h : (k : ℚ) ≤ x) : k ≤ pyRound x :=
  le_trans (Rat.le_floor.mpr h) (floor_le_pyRound x)

/-- Gate structure of `execute_trade`: every call either submits nothing or
runs the signal dispatch at the computed contract quantity. -/
theorem execute_trade_cases (cfg : TradeConfig) (spec : ContractSpec)
    (signal_data : SignalData) (price_data : PriceData)
    (current_position : Option PositionRecord)
    (usdt_balance : ℚ) (close_ack_code : String) :
    execute_trade cfg spec signal_data price_data current_position
      usdt_balance close_ack_code = []
    ∨ execute_trade cfg spec signal_data price_data current_position
        usdt_balance close_ack_code
      = signal_dispatch signal_data current_position
          (calculate_position_size cfg spec price_data.price 5).contracts
          close_ack_code := by
  simp only [execute_trade]
  split_ifs <;> simp

/-- HOLD (and any unrecognized action) dispatches no order. -/
theorem signal_dispatch_hold (signal_data : SignalData)
    (current_position : Option PositionRecord)
    (position_size : ℚ) (close_ack_code : String)
    (h : signal_data.signal = "HOLD") :
    signal_dispatch signal_data current_position position_size
      close_ack_code = [] := by
  simp [signal_dispatch, h]

/-- Batteries' rational floor agrees with the Mathlib floor on `ℚ`. -/
theorem rat_floor_eq_floor (q : ℚ) : q.floor = ⌊q⌋ := rfl

/-- Sizing at the source configuration and default specs with price 100:
0.5 contracts, 5 USD notional, 0.5 USD margin (spec scenario A). -/
theorem sizing_at_100 :
    calculate_position_size TRADE_CONFIG default_contract_specs 100 5
      = ⟨1/2, 5, 1/2⟩ := by
  unfold calculate_position_size
  norm_num [default_contract_specs, TRADE_CONFIG, pyRound, rat_floor_eq_floor,
    max_def]

/-- In a flip state with a failing close acknowledgment, the dispatch
submits only reduce-only orders. -/
theorem dispatch_flip_fail (signal_data : SignalData) (p : PositionRecord)
    (q : ℚ) (ack : String)
    (hflip : (p.side = "short" ∧ signal_data.signal = "BUY")
      ∨ (p.side = "long" ∧ signal_data.signal = "SELL"))
    (hack : ack ≠ "0") :
    (signal_dispatch signal_data (some p) q ack).all
      (fun o => o.reduceOnly) = true := by
  rcases hflip with ⟨hside, hsig⟩ | ⟨hside, hsig⟩ <;>
    simp [signal_dispatch, hside, hsig, hack, close_short_order,
      close_long_order]

/-- When the position already sits in the signal's direction, the dispatch
submits no reduce-only close order. -/
theorem dispatch_same_dir (signal_data : SignalData) (p : PositionRecord)
    (q : ℚ) (ack : String)
    (hsame : (p.side = "long" ∧ signal_data.signal = "BUY")
      ∨ (p.side = "short" ∧ signal_data.signal = "SELL")) :
    (signal_dispatch signal_data (some p) q ack).all
      (fun o => !o.reduceOnly) = true := by
  rcases hsame with ⟨hside, hsig⟩ | ⟨hside, hsig⟩ <;>
    simp [signal_dispatch, hside, hsig, open_long_order, open_short_order]

/-- C3: whenever the signal's confidence field equals "LOW", `execute_trade`
returns before the exchange is touched: no order — open or close — is
submitted, for every signal action, position, balance, spec and ack code. -/
theorem low_confidence_no_order (cfg : TradeConfig) (spec : ContractSpec)
    (signal_data : SignalData) (price_data : PriceData)
    (current_position : Option PositionRecord) (usdt_balance : ℚ)
    (close_ack_code : String)
    (h : signal_data.confidence = "LOW") :
    execute_trade cfg spec signal_data price_data current_position
      usdt_balance close_ack_code = [] := by
  simp [execute_trade, h]

/-- Witness for C3 at a concrete state: a LOW-confidence BUY signal with an
open short position, ample balance, and passing gates submits nothing. -/
theorem low_confidence_no_order_witness :
    (SignalData.mk "BUY" "LOW").confidence = "LOW"
    ∧ execute_trade TRADE_CONFIG default_contract_specs
        (SignalData.mk "BUY" "LOW") (PriceData.mk 100 "t")
        (some (PositionRecord.mk "short" 1)) 10 "0" = [] :=
  ⟨rfl, low_confidence_no_order TRADE_CONFIG default_contract_specs
    (SignalData.mk "BUY" "LOW") (PriceData.mk 100 "t")
    (some (PositionRecord.mk "short" 1)) 10 "0" rfl⟩

/-- C9: with the test-mode flag set, `execute_trade` submits no order for
any signal, position, balance, spec or ack code; it returns at the
test-mode check (or already at the confidence check). -/
theorem test_mode_no_order (cfg : TradeConfig) (spec : ContractSpec)
    (signal_data : SignalData) (price_data : PriceData)
    (current_position : Option PositionRecord) (usdt_balance : ℚ)
    (close_ack_code : String)
    (h : cfg.test_mode = true) :
    execute_trade cfg spec signal_data price_data current_position
      usdt_balance close_ack_code = [] := by
  simp [execute_trade, h]

/-- Witness for C9: the source configuration with the test-mode flag
turned on submits nothing for a HIGH-confidence BUY with no position. -/
theorem test_mode_no_order_witness :
    (TradeConfig.mk 5 10 true 100).test_mode = true
    ∧ execute_trade (TradeConfig.mk 5 10 true 100) default_contract_specs
        (SignalData.mk "BUY" "HIGH") (PriceData.mk 100 "t") none 10 "0" = [] :=
  ⟨rfl, test_mode_no_order (TradeConfig.mk 5 10 true 100)
    default_contract_specs (SignalData.mk "BUY" "HIGH") (PriceData.mk 100 "t")
    none 10 "0" rfl⟩

/-- C8: a HOLD signal submits no order, so running `execute_trade` twice
on identical external state (same price data, position, balance, spec,
ack) with the identical HOLD signal submits no order on either run; the
model is a pure function of that external state, so both runs are the
same application. -/
theorem hold_no_order_twice (cfg : TradeConfig) (spec : ContractSpec)
    (signal_data : SignalData) (price_data : PriceData)
    (current_position : Option PositionRecord) (usdt_balance : ℚ)
    (close_ack_code : String)
    (h : signal_data.signal = "HOLD") :
    execute_trade cfg spec signal_data price_data current_position
      usdt_balance close_ack_code = []
    ∧ execute_trade cfg spec signal_data price_data current_position
      usdt_balance close_ack_code = [] := by
  have key : execute_trade cfg spec signal_data price_data current_position
      usdt_balance close_ack_code = [] := by
    rcases execute_trade_cases cfg spec signal_data price_data
      current_position usdt_balance close_ack_code with he | he <;> rw [he]
    exact signal_dispatch_hold _ _ _ _ h
  exact ⟨key, key⟩

/-- Witness for C8: a concrete HOLD cycle with an open long position and
passing gates submits nothing, twice. -/
theorem hold_no_order_twice_witness :
    (SignalData.mk "HOLD" "HIGH").signal = "HOLD"
    ∧ (execute_trade TRADE_CONFIG default_contract_specs
        (SignalData.mk "HOLD" "HIGH") (PriceData.mk 100 "t")
        (some (PositionRecord.mk "long" 1)) 10 "0" = []
      ∧ execute_trade TRADE_CONFIG default_contract_specs
        (SignalData.mk "HOLD" "HIGH") (PriceData.mk 100 "t")
        (some (PositionRecord.mk "long" 1)) 10 "0" = []) :=
  ⟨rfl, hold_no_order_twice TRADE_CONFIG default_contract_specs
    (SignalData.mk "HOLD" "HIGH") (PriceData.mk 100 "t")
    (some (PositionRecord.mk "long" 1)) 10 "0" rfl⟩

/-- C10: whenever a position exists (either direction) and its notional
plus the new order's actual notional exceeds the configured maximum
position value, `execute_trade` submits nothing — the gate sits before
both signal branches, so even the reduce-only close leg of a flip is
blocked. -/
theorem max_position_gate_blocks_all (cfg : TradeConfig) (spec : ContractSpec)
    (signal_data : SignalData) (price_data : PriceData)
    (p : PositionRecord) (usdt_balance : ℚ) (close_ack_code : String)
    (hover : p.size * spec.contract_value * price_data.price
      + (calculate_position_size cfg spec price_data.price 5).actual_notional
      > cfg.max_position_value) :
    execute_trade cfg spec signal_data price_data (some p)
      usdt_balance close_ack_code = [] := by
  simp only [execute_trade]
  split_ifs with h1 h2 h3 h4 h5 h6 <;> try rfl
  simp only [decide_eq_true_eq] at h6
  exact absurd hover h6

/-- Witness for C10: a short position of 10 contracts at price 100
(notional 100) plus a new 5-USD open breaches the 100-USD cap, so a
HIGH-confidence BUY flip attempt submits nothing — not even the close. -/
theorem max_position_gate_blocks_all_witness :
    (PositionRecord.mk "short" 10).size
        * default_contract_specs.contract_value * (PriceData.mk 100 "t").price
      + (calculate_position_size TRADE_CONFIG default_contract_specs
          (PriceData.mk 100 "t").price 5).actual_notional
      > TRADE_CONFIG.max_position_value
    ∧ execute_trade TRADE_CONFIG default_contract_specs
        (SignalData.mk "BUY" "HIGH") (PriceData.mk 100 "t")
        (some (PositionRecord.mk "short" 10)) 1000 "0" = [] :=
  ⟨by simp only [sizing_at_100]
      norm_num [TRADE_CONFIG, default_contract_specs],
   max_position_gate_blocks_all TRADE_CONFIG default_contract_specs
    (SignalData.mk "BUY" "HIGH") (PriceData.mk 100 "t")
    (PositionRecord.mk "short" 10) 1000 "0"
    (by simp only [sizing_at_100]
        norm_num [TRADE_CONFIG, default_contract_specs])⟩

/-- C2: in a flip (short position with BUY signal, or long position with
SELL signal), if the exchange acknowledges the reduce-only close order
with a code other than "0", then every order submitted in the call is
reduce-only: no opening order is submitted. -/
theorem flip_close_failure_no_open (cfg : TradeConfig) (spec : ContractSpec)
    (signal_data : SignalData) (price_data : PriceData)
    (p : PositionRecord) (usdt_balance : ℚ) (close_ack_code : String)
    (hflip : (p.side = "short" ∧ signal_data.signal = "BUY")
      ∨ (p.side = "long" ∧ signal_data.signal = "SELL"))
    (hack : close_ack_code ≠ "0") :
    (execute_trade cfg spec signal_data price_data (some p)
      usdt_balance close_ack_code).all (fun o => o.reduceOnly) = true := by
  rcases execute_trade_cases cfg spec signal_data price_data (some p)
    usdt_balance close_ack_code with he | he <;> rw [he]
  · rfl
  · exact dispatch_flip_fail signal_data p _ close_ack_code hflip hack

/-- Witness for C2: a short position, a HIGH-confidence BUY, and a close
acknowledgment code "1" yield a trace whose orders are all reduce-only. -/
theorem flip_close_failure_no_open_witness :
    ((PositionRecord.mk "short" 1).side = "short"
      ∧ (SignalData.mk "BUY" "HIGH").signal = "BUY")
    ∧ ("1" : String) ≠ "0"
    ∧ (execute_trade TRADE_CONFIG default_contract_specs
        (SignalData.mk "BUY" "HIGH") (PriceData.mk 100 "t")
        (some (PositionRecord.mk "short" 1)) 10 "1").all
        (fun o => o.reduceOnly) = true :=
  ⟨⟨rfl, rfl⟩, by decide,
   flip_close_failure_no_open TRADE_CONFIG default_contract_specs
    (SignalData.mk "BUY" "HIGH") (PriceData.mk 100 "t")
    (PositionRecord.mk "short" 1) 10 "1"
    (Or.inl ⟨rfl, rfl⟩) (by decide)⟩

/-- C1 counterexample: with a long position of 1 contract, a HIGH-confidence
BUY signal at price 100, balance 10 and a successful ack, `execute_trade`
is not a no-op — it submits an opening buy-long order of 0.5 contracts
(an add to the existing long). -/
theorem long_buy_submits_order :
    execute_trade TRADE_CONFIG default_contract_specs
      (SignalData.mk "BUY" "HIGH") (PriceData.mk 100 "t")
      (some (PositionRecord.mk "long" 1)) 10 "0"
      = [open_long_order (1/2)] := by
  simp only [execute_trade, sizing_at_100]
  norm_num [TRADE_CONFIG, default_contract_specs, signal_dispatch]
  simp

/-- C1 amended: with a long position and a BUY signal (resp. a short
position and a SELL signal), no reduce-only close order is ever submitted
— every submitted order is an opening order — and the transition is not a
no-op: whenever every risk gate passes (confidence not LOW, test mode off,
margin within 60% of balance, notional within bounds, combined notional
within the cap), the call submits exactly one opening order in the
position's own direction, at the computed contract quantity (an
add-to-position). -/
theorem same_direction_add_to_position (cfg : TradeConfig)
    (spec : ContractSpec) (signal_data : SignalData) (price_data : PriceData)
    (p : PositionRecord) (usdt_balance : ℚ) (close_ack_code : String)
    (hsame : (p.side = "long" ∧ signal_data.signal = "BUY")
      ∨ (p.side = "short" ∧ signal_data.signal = "SELL")) :
    ((execute_trade cfg spec signal_data price_data (some p)
        usdt_balance close_ack_code).all (fun o => !o.reduceOnly) = true)
    ∧ (signal_data.confidence ≠ "LOW" →
       cfg.test_mode = false →
       ¬((calculate_position_size cfg spec price_data.price 5).required_margin
          > usdt_balance * (6/10)) →
       ¬((calculate_position_size cfg spec price_data.price 5).actual_notional
          > cfg.max_position_value) →
       ¬((calculate_position_size cfg spec price_data.price 5).actual_notional
          < 3) →
       ¬(p.size * spec.contract_value * price_data.price
          + (calculate_position_size cfg spec price_data.price 5).actual_notional
          > cfg.max_position_value) →
       execute_trade cfg spec signal_data price_data (some p)
          usdt_balance close_ack_code
        = if signal_data.signal = "BUY" then
            [open_long_order
              (calculate_position_size cfg spec price_data.price 5).contracts]
          else
            [open_short_order
              (calculate_position_size cfg spec price_data.price 5).contracts]) := by
  constructor
  · rcases execute_trade_cases cfg spec signal_data price_data (some p)
      usdt_balance close_ack_code with he | he <;> rw [he]
    · rfl
    · exact dispatch_same_dir signal_data p _ close_ack_code hsame
  · intro hconf htest hmargin hnot hmin hcomb
    simp only [execute_trade]
    rw [if_neg hconf, if_neg (by simp [htest]), if_neg hmargin, if_neg hnot,
      if_neg hmin, if_neg (by simpa using hcomb)]
    rcases hsame with ⟨hside, hsig⟩ | ⟨hside, hsig⟩ <;>
      simp [signal_dispatch, hsig, hside]

/-- Witness for the amended C1: at the counterexample's long-position BUY
state every gate passes, every submitted order is non-reduce-only, and the
trace is exactly the single opening buy-long order of 0.5 contracts. -/
theorem same_direction_add_to_position_witness :
    ((PositionRecord.mk "long" 1).side = "long"
      ∧ (SignalData.mk "BUY" "HIGH").signal = "BUY")
    ∧ (execute_trade TRADE_CONFIG default_contract_specs
        (SignalData.mk "BUY" "HIGH") (PriceData.mk 100 "t")
        (some (PositionRecord.mk "long" 1)) 10 "0").all
        (fun o => !o.reduceOnly) = true
    ∧ execute_trade TRADE_CONFIG default_contract_specs
        (SignalData.mk "BUY" "HIGH") (PriceData.mk 100 "t")
        (some (PositionRecord.mk "long" 1)) 10 "0"
      = [open_long_order ((1:ℚ)/2)] := by
  have h := same_direction_add_to_position TRADE_CONFIG default_contract_specs
    (SignalData.mk "BUY" "HIGH") (PriceData.mk 100 "t")
    (PositionRecord.mk "long" 1) 10 "0" (Or.inl ⟨rfl, rfl⟩)
  refine ⟨⟨rfl, rfl⟩, h.1, ?_⟩
  have h2 := h.2 (by decide) rfl
    (by simp only [sizing_at_100]; norm_num)
    (by simp only [sizing_at_100]; norm_num [TRADE_CONFIG])
    (by simp only [sizing_at_100]; norm_num)
    (by simp only [sizing_at_100]; norm_num [TRADE_CONFIG, default_contract_specs])
  rw [h2]
  simp [sizing_at_100]

/-- The fallback signal carries every required field. -/
theorem fallback_wellformed (price_data : PriceData) :
    required_fields.all
      (fun f => (create_fallback_signal price_data).hasField f) = true := rfl

/-- Stamping the timestamp preserves presence of the required fields. -/
theorem setField_preserves_wellformed (o : JsonObj) (k : String) (v : JsonVal)
    (h : required_fields.all (fun f => o.hasField f) = true) :
    required_fields.all (fun f => (o.setField k v).hasField f) = true := by
  simp [required_fields, JsonObj.hasField, JsonObj.setField] at h ⊢
  tauto

/-- C4: for every oracle outcome — client unavailable, call failure
(`oracle_response = none`), any response text including the empty string,
any parse behaviour including failure (`parseJson _ = none`, the non-JSON
case) or a parse missing a required field — `analyze_with_deepseek` is a
total function returning a dict holding all required fields, and every
path other than a fully validated parse returns exactly the deterministic
fallback: signal HOLD, confidence LOW, stop-loss price×0.98, take-profit
price×1.02, is_fallback true. -/
theorem analyze_total_and_fallback_exact (parseJson : String → Option JsonObj)
    (client_ok : Bool) (oracle_response : Option String)
    (price_data : PriceData) :
    required_fields.all (fun f =>
      (analyze_with_deepseek parseJson client_ok oracle_response
        price_data).hasField f) = true
    ∧ ((∃ obj : JsonObj, required_fields.all (fun f => obj.hasField f) = true
          ∧ analyze_with_deepseek parseJson client_ok oracle_response price_data
            = obj.setField "timestamp" (JsonVal.str price_data.timestamp))
      ∨ (analyze_with_deepseek parseJson client_ok oracle_response price_data
            = create_fallback_signal price_data
        ∧ (analyze_with_deepseek parseJson client_ok oracle_response
            price_data).get "signal" = some (JsonVal.str "HOLD")
        ∧ (analyze_with_deepseek parseJson client_ok oracle_response
            price_data).get "confidence" = some (JsonVal.str "LOW")
        ∧ (analyze_with_deepseek parseJson client_ok oracle_response
            price_data).get "stop_loss"
            = some (JsonVal.num (price_data.price * (98/100)))
        ∧ (analyze_with_deepseek parseJson client_ok oracle_response
            price_data).get "take_profit"
            = some (JsonVal.num (price_data.price * (102/100)))
        ∧ (analyze_with_deepseek parseJson client_ok oracle_response
            price_data).get "is_fallback" = some (JsonVal.bool true))) := by
  cases client_ok with
  | false =>
    exact ⟨rfl, Or.inr ⟨rfl, rfl, rfl, rfl, rfl, rfl⟩⟩
  | true =>
    cases oracle_response with
    | none => exact ⟨rfl, Or.inr ⟨rfl, rfl, rfl, rfl, rfl, rfl⟩⟩
    | some r =>
      rcases h1 : extract_braced r with _ | js
      · have hres : analyze_with_deepseek parseJson true (some r) price_data
            = create_fallback_signal price_data := by
          simp [analyze_with_deepseek, h1]
        rw [hres]
        exact ⟨fallback_wellformed price_data,
          Or.inr ⟨rfl, rfl, rfl, rfl, rfl, rfl⟩⟩
      · rcases h3 : parseJson js with _ | obj
        · have hres : analyze_with_deepseek parseJson true (some r) price_data
              = create_fallback_signal price_data := by
            simp [analyze_with_deepseek, h1, h3]
          rw [hres]
          exact ⟨fallback_wellformed price_data,
            Or.inr ⟨rfl, rfl, rfl, rfl, rfl, rfl⟩⟩
        · by_cases h4 : required_fields.all (fun f => obj.hasField f) = true
          · have hres : analyze_with_deepseek parseJson true (some r) price_data
                = obj.setField "timestamp" (JsonVal.str price_data.timestamp) := by
              simp [analyze_with_deepseek, h1, h3, h4]
            rw [hres]
            exact ⟨setField_preserves_wellformed obj _ _ h4,
              Or.inl ⟨obj, h4, rfl⟩⟩
          · have hres : analyze_with_deepseek parseJson true (some r) price_data
                = create_fallback_signal price_data := by
              simp [analyze_with_deepseek, h1, h3, h4]
            rw [hres]
            exact ⟨fallback_wellformed price_data,
              Or.inr ⟨rfl, rfl, rfl, rfl, rfl, rfl⟩⟩

/-- An oracle reply carrying all five required fields but an
out-of-vocabulary action string, used to probe the validation step. -/
def sample_parsed_reply : JsonObj :=
  [("signal", JsonVal.str "WAIT"), ("reason", JsonVal.str "w"),
   ("stop_loss", JsonVal.num 95), ("take_profit", JsonVal.num 105),
   ("confidence", JsonVal.str "HIGH")]

/-- C5 counterexample: a parsed reply with all five required fields whose
signal field is "WAIT" — not one of BUY, SELL, HOLD — is returned as-is by
`analyze_with_deepseek`, not replaced by the fallback: the result's signal
field still reads "WAIT" while the fallback's reads "HOLD". -/
theorem invalid_action_not_rejected :
    required_fields.all (fun f => sample_parsed_reply.hasField f) = true
    ∧ sample_parsed_reply.get "signal" = some (JsonVal.str "WAIT")
    ∧ (analyze_with_deepseek (fun _ => some sample_parsed_reply) true
        (some "\x7b\x7d") (PriceData.mk 100 "t")).get "signal"
        = some (JsonVal.str "WAIT")
    ∧ (create_fallback_signal (PriceData.mk 100 "t")).get "signal"
        = some (JsonVal.str "HOLD")
    ∧ analyze_with_deepseek (fun _ => some sample_parsed_reply) true
        (some "\x7b\x7d") (PriceData.mk 100 "t")
        ≠ create_fallback_signal (PriceData.mk 100 "t") := by
  refine ⟨rfl, rfl, rfl, rfl, ?_⟩
  intro heq
  have h2 := congrArg (fun o => JsonObj.get o "signal") heq
  have h3 : (some (JsonVal.str "WAIT") : Option JsonVal)
      = some (JsonVal.str "HOLD") := h2
  exact absurd h3 (by decide)

/-- C5 amended: the validation checks only that the five required fields
are present; whenever the braces are found, the parse succeeds, and all
required fields are present, the parsed dict is accepted and returned
(timestamp stamped) regardless of the signal field's value — no membership
check against BUY, SELL, HOLD is performed. -/
theorem presence_only_validation (parseJson : String → Option JsonObj)
    (r : String) (price_data : PriceData) (obj : JsonObj) (js : String)
    (hs : extract_braced r = some js)
    (hp : parseJson js = some obj)
    (hall : required_fields.all (fun f => obj.hasField f) = true) :
    analyze_with_deepseek parseJson true (some r) price_data
      = obj.setField "timestamp" (JsonVal.str price_data.timestamp) := by
  simp [analyze_with_deepseek, hs, hp, hall]

/-- Witness for the amended C5 at the "WAIT" reply: the parse is accepted
and returned with only the timestamp added. -/
theorem presence_only_validation_witness :
    (extract_braced "\x7b\x7d" = some "\x7b\x7d")
    ∧ ((fun _ : String => some sample_parsed_reply) "\x7b\x7d"
        = some sample_parsed_reply)
    ∧ (required_fields.all (fun f => sample_parsed_reply.hasField f) = true)
    ∧ analyze_with_deepseek (fun _ => some sample_parsed_reply) true
        (some "\x7b\x7d") (PriceData.mk 100 "t")
        = sample_parsed_reply.setField "timestamp" (JsonVal.str "t") :=
  ⟨rfl, rfl, rfl,
   presence_only_validation (fun _ => some sample_parsed_reply) "\x7b\x7d"
     (PriceData.mk 100 "t") sample_parsed_reply "\x7b\x7d" rfl rfl rfl⟩

/-- C6 amended: for every positive price and positive target notional, and
for every contract spec with nonzero contract value, positive size
increment, and minimum size equal to a positive-integer multiple of the
size increment (as the default spec's 0.01 = 100 × 0.0001 is), the
contracts quantity returned by `calculate_position_size` is an exact
integer multiple of the size increment and is at least the minimum size. -/
theorem position_size_quantized (cfg : TradeConfig) (spec : ContractSpec)
    (price target_notional : ℚ) (k : ℤ)
    (hp : 0 < price) (ht : 0 < target_notional)
    (hcv : spec.contract_value ≠ 0)
    (hinc : 0 < spec.size_increment)
    (hk : 1 ≤ k) (hmin : spec.min_size = (k : ℚ) * spec.size_increment) :
    (∃ n : ℤ, (calculate_position_size cfg spec price target_notional).contracts
        = (n : ℚ) * spec.size_increment)
    ∧ spec.min_size
      ≤ (calculate_position_size cfg spec price target_notional).contracts := by
  have hne : spec.contract_value * price ≠ 0 := mul_ne_zero hcv (ne_of_gt hp)
  unfold calculate_position_size
  rw [if_neg hne]
  dsimp only
  rw [if_pos hinc]
  constructor
  · exact ⟨pyRound (max (target_notional / (spec.contract_value * price))
      spec.min_size / spec.size_increment), rfl⟩
  · have h2 : (k : ℚ) ≤ max (target_notional / (spec.contract_value * price))
        spec.min_size / spec.size_increment := by
      rw [le_div_iff₀ hinc, ← hmin]
      exact le_max_right _ _
    have h3 := le_pyRound_of_le k _ h2
    calc spec.min_size = (k : ℚ) * spec.size_increment := hmin
      _ ≤ (pyRound (max (target_notional / (spec.contract_value * price))
            spec.min_size / spec.size_increment) : ℚ) * spec.size_increment := by
          apply mul_le_mul_of_nonneg_right _ hinc.le
          exact_mod_cast h3

/-- Witness for the amended C6 at the default spec (minimum size 0.01 is
100 size increments), price 100, target 5: the result, 0.5 contracts, is a
multiple of 0.0001 and at least 0.01. -/
theorem position_size_quantized_witness :
    (0:ℚ) < 100 ∧ (0:ℚ) < 5
    ∧ default_contract_specs.contract_value ≠ 0
    ∧ 0 < default_contract_specs.size_increment
    ∧ (1:ℤ) ≤ 100
    ∧ default_contract_specs.min_size
      = ((100:ℤ) : ℚ) * default_contract_specs.size_increment
    ∧ ((∃ n : ℤ, (calculate_position_size TRADE_CONFIG default_contract_specs
          100 5).contracts = (n:ℚ) * default_contract_specs.size_increment)
       ∧ default_contract_specs.min_size
         ≤ (calculate_position_size TRADE_CONFIG default_contract_specs
            100 5).contracts) :=
  ⟨by norm_num, by norm_num, by norm_num [default_contract_specs],
   by norm_num [default_contract_specs], by norm_num,
   by norm_num [default_contract_specs],
   position_size_quantized TRADE_CONFIG default_contract_specs 100 5 100
    (by norm_num) (by norm_num) (by norm_num [default_contract_specs])
    (by norm_num [default_contract_specs]) (by norm_num)
    (by norm_num [default_contract_specs])⟩

/-- C6 counterexample: with a contract spec whose minimum size 0.001 is
smaller than half the size increment 0.01, price 12500 and target notional
5 (both positive), the quantity 0.004 rounds to 0 contracts — strictly
below the minimum size, so the claimed bound fails for general specs. -/
theorem position_size_below_min_size :
    (0:ℚ) < 12500 ∧ (0:ℚ) < 5
    ∧ (calculate_position_size TRADE_CONFIG
        (ContractSpec.mk (1/1000) (1/100) (1/10)) 12500 5).contracts
      < (ContractSpec.mk (1/1000) (1/100) (1/10)).min_size := by
  refine ⟨by norm_num, by norm_num, ?_⟩
  have h : (calculate_position_size TRADE_CONFIG
      (ContractSpec.mk (1/1000) (1/100) (1/10)) 12500 5).contracts = 0 := by
    unfold calculate_position_size
    norm_num [pyRound, rat_floor_eq_floor, max_def]
  rw [h]
  norm_num

/-- Clamped-positive deltas have a nonnegative mean. -/
theorem avg_gain_nonneg (closes : List ℚ) : 0 ≤ avg_gain closes := by
  unfold avg_gain
  apply div_nonneg _ (by norm_num)
  apply List.sum_nonneg
  intro x hx
  simp only [List.mem_map] at hx
  obtain ⟨d, _, rfl⟩ := hx
  exact le_max_right d 0

/-- Clamped-negative deltas have a nonnegative mean. -/
theorem avg_loss_nonneg (closes : List ℚ) : 0 ≤ avg_loss closes := by
  unfold avg_loss
  apply div_nonneg _ (by norm_num)
  apply List.sum_nonneg
  intro x hx
  simp only [List.mem_map] at hx
  obtain ⟨d, _, rfl⟩ := hx
  exact le_max_right (-d) 0

/-- C7: for every close-price window of at least 15 closes whose 14-period
average gain and average loss are not both zero (the non-degenerate case),
the RSI of the final row lies in [0, 100]; and whenever the average loss is
zero with the average gain positive, the RSI equals 100. -/
theorem rsi_bounds (closes : List ℚ) (hlen : 15 ≤ closes.length) :
    (¬ (avg_gain closes = 0 ∧ avg_loss closes = 0) →
      0 ≤ rsi closes ∧ rsi closes ≤ 100)
    ∧ (avg_loss closes = 0 → 0 < avg_gain closes → rsi closes = 100) := by
  constructor
  · intro _
    by_cases hl : avg_loss closes = 0
    · rw [rsi, if_pos hl]
      norm_num
    · have hl0 : 0 < avg_loss closes :=
        lt_of_le_of_ne (avg_loss_nonneg closes) (Ne.symm hl)
      have hg0 : 0 ≤ avg_gain closes := avg_gain_nonneg closes
      have hrs : 0 ≤ avg_gain closes / avg_loss closes := div_nonneg hg0 hl0.le
      have h1 : (0:ℚ) < 1 + avg_gain closes / avg_loss closes := by linarith
      have h2 : 100 / (1 + avg_gain closes / avg_loss closes) ≤ 100 := by
        rw [div_le_iff₀ h1]; nlinarith
      have h3 : 0 ≤ 100 / (1 + avg_gain closes / avg_loss closes) :=
        div_nonneg (by norm_num) h1.le
      rw [rsi, if_neg hl]
      constructor <;> linarith
  · intro hl _
    rw [rsi, if_pos hl]

/-- Witness for C7: fifteen strictly increasing closes give average gain 1,
average loss 0, and RSI exactly 100, inside [0, 100]. -/
theorem rsi_bounds_witness :
    (15 ≤ ([1,2,3,4,5,6,7,8,9,10,11,12,13,14,15] : List ℚ).length)
    ∧ avg_loss [1,2,3,4,5,6,7,8,9,10,11,12,13,14,15] = 0
    ∧ 0 < avg_gain [1,2,3,4,5,6,7,8,9,10,11,12,13,14,15]
    ∧ (0 ≤ rsi [1,2,3,4,5,6,7,8,9,10,11,12,13,14,15]
        ∧ rsi [1,2,3,4,5,6,7,8,9,10,11,12,13,14,15] ≤ 100)
    ∧ rsi [1,2,3,4,5,6,7,8,9,10,11,12,13,14,15] = 100 := by
  have hg : avg_gain [1,2,3,4,5,6,7,8,9,10,11,12,13,14,15] = 1 := by
    norm_num [avg_gain, deltas, last14]
  have hl : avg_loss [1,2,3,4,5,6,7,8,9,10,11,12,13,14,15] = 0 := by
    norm_num [avg_loss, deltas, last14]
  have hmain := rsi_bounds [1,2,3,4,5,6,7,8,9,10,11,12,13,14,15] (by norm_num)
  refine ⟨by norm_num, hl, by rw [hg]; norm_num, hmain.1 ?_,
    hmain.2 hl (by rw [hg]; norm_num)⟩
  intro h
  rw [hg] at h
  exact absurd h.1 (by norm_num)

end Okx
